import Mathlib

/-!
Verification of `py_landlock/sandbox.py`: a shallow embedding of the
Landlock sandbox module.  Syscall outcomes, filesystem existence and the
running architecture are supplied by an explicit `World`; every function
returns its result together with the list of side-effecting events it
performed, so that ordering, resource-release and frame properties can be
stated on traces.
-/

namespace PyLandlock

/-- `errno.ENOSYS` on Linux. -/
def ENOSYS : Nat := 38

/-- `errno.EOPNOTSUPP` on Linux. -/
def EOPNOTSUPP : Nat := 95

def _PR_SET_NO_NEW_PRIVS : Nat := 38

def _LANDLOCK_CREATE_RULESET_VERSION : Nat := 1
def _LANDLOCK_RULE_PATH_BENEATH : Nat := 1

def _LANDLOCK_ACCESS_FS_EXECUTE : Nat := 2 ^ 0
def _LANDLOCK_ACCESS_FS_WRITE_FILE : Nat := 2 ^ 1
def _LANDLOCK_ACCESS_FS_READ_FILE : Nat := 2 ^ 2
def _LANDLOCK_ACCESS_FS_READ_DIR : Nat := 2 ^ 3
def _LANDLOCK_ACCESS_FS_REMOVE_DIR : Nat := 2 ^ 4
def _LANDLOCK_ACCESS_FS_REMOVE_FILE : Nat := 2 ^ 5
def _LANDLOCK_ACCESS_FS_MAKE_CHAR : Nat := 2 ^ 6
def _LANDLOCK_ACCESS_FS_MAKE_DIR : Nat := 2 ^ 7
def _LANDLOCK_ACCESS_FS_MAKE_REG : Nat := 2 ^ 8
def _LANDLOCK_ACCESS_FS_MAKE_SOCK : Nat := 2 ^ 9
def _LANDLOCK_ACCESS_FS_MAKE_FIFO : Nat := 2 ^ 10
def _LANDLOCK_ACCESS_FS_MAKE_BLOCK : Nat := 2 ^ 11
def _LANDLOCK_ACCESS_FS_MAKE_SYM : Nat := 2 ^ 12

/-- The constant write-class access mask, bitwise-or of ten access bits,
as in `sandbox.py` lines 32-43. -/
def _WRITE_ACCESS : Nat :=
  _LANDLOCK_ACCESS_FS_WRITE_FILE
    ||| _LANDLOCK_ACCESS_FS_REMOVE_DIR
    ||| _LANDLOCK_ACCESS_FS_REMOVE_FILE
    ||| _LANDLOCK_ACCESS_FS_MAKE_CHAR
    ||| _LANDLOCK_ACCESS_FS_MAKE_DIR
    ||| _LANDLOCK_ACCESS_FS_MAKE_REG
    ||| _LANDLOCK_ACCESS_FS_MAKE_SOCK
    ||| _LANDLOCK_ACCESS_FS_MAKE_FIFO
    ||| _LANDLOCK_ACCESS_FS_MAKE_BLOCK
    ||| _LANDLOCK_ACCESS_FS_MAKE_SYM

def _SUPPORTED_ARCHS : List String := ["x86_64", "aarch64"]

/-- The structured errors the module can raise:
`unsupportedArch` is the `RuntimeError` of `_ensure_supported_arch`,
`osError n` is `OSError(n, ...)`, `fileNotFound p` is
`FileNotFoundError(p)`, `alreadyApplied` is the misuse `RuntimeError` of
`Sandbox.apply`, and `noOPath` is the `RuntimeError` raised when
`os.O_PATH` is missing. -/
inductive Err where
  | unsupportedArch : Err
  | osError : Nat → Err
  | fileNotFound : String → Err
  | alreadyApplied : Err
  | noOPath : Err
  deriving DecidableEq, Repr

/-- Observable side-effecting events, in execution order.
`sysCreateRuleset`, `sysAddRule`, `sysRestrictSelf` are the three
Landlock syscalls; `sysPrctlSetNNP` is `prctl(PR_SET_NO_NEW_PRIVS, ...)`;
`osOpen`/`osClose` are the file-descriptor operations. -/
inductive Event where
  | sysCreateRuleset : Option Nat → Nat → Event
  | sysAddRule : Nat → Nat → Nat → Nat → Event
  | sysRestrictSelf : Nat → Event
  | sysPrctlSetNNP : Event
  | osOpen : String → Nat → Event
  | osClose : Nat → Event
  deriving DecidableEq, Repr

def Event.isKernelCall : Event → Bool
  | .sysCreateRuleset _ _ => true
  | .sysAddRule _ _ _ _ => true
  | .sysRestrictSelf _ => true
  | .sysPrctlSetNNP => true
  | .osOpen _ _ => false
  | .osClose _ => false

def Event.isAddRule : Event → Bool
  | .sysAddRule _ _ _ _ => true
  | _ => false

def Event.isClose : Event → Bool
  | .osClose _ => true
  | _ => false

def Event.isCreate : Event → Bool
  | .sysCreateRuleset _ _ => true
  | _ => false

def Event.isPrctl : Event → Bool
  | .sysPrctlSetNNP => true
  | _ => false

def Event.isRestrict : Event → Bool
  | .sysRestrictSelf _ => true
  | _ => false

/-- The environment: architecture, filesystem, and the outcome of each
OS-level operation.  Syscall outcomes are `Except errno value`. -/
structure World where
  machine : String
  absPath : String → String
  pathExists : String → Bool
  oPath : Option Nat
  createRulesetResult : Option Nat → Nat → Except Nat Nat
  openResult : String → Except Nat Nat
  addRuleResult : Nat → Nat → Nat → Nat → Except Nat Unit
  prctlResult : Except Nat Unit
  restrictResult : Nat → Except Nat Unit

/-- Process-wide state affected by `apply`: the no-new-privileges flag
and whether a Landlock policy has been committed to the process. -/
structure Proc where
  nnp : Bool
  policyCommitted : Bool
  deriving DecidableEq, Repr

/-- `_ensure_supported_arch` (sandbox.py lines 59-61). -/
def _ensure_supported_arch (w : World) : Except Err Unit :=
  if w.machine ∈ _SUPPORTED_ARCHS then .ok () else .error .unsupportedArch

/-- `_landlock_create_ruleset` (sandbox.py lines 72-86): checks the
architecture, then issues the create-ruleset syscall; a `none` mask is
the version probe. -/
def _landlock_create_ruleset (w : World) (handled_access_fs : Option Nat)
    (flags : Nat) : Except Err Nat × List Event :=
  match _ensure_supported_arch w with
  | .error e => (.error e, [])
  | .ok () =>
    match w.createRulesetResult handled_access_fs flags with
    | .error n => (.error (.osError n), [.sysCreateRuleset handled_access_fs flags])
    | .ok fd => (.ok fd, [.sysCreateRuleset handled_access_fs flags])

/-- `_landlock_add_rule` (sandbox.py lines 89-98). -/
def _landlock_add_rule (w : World) (ruleset_fd rule_type path_fd allowed : Nat) :
    Except Err Unit × List Event :=
  match _ensure_supported_arch w with
  | .error e => (.error e, [])
  | .ok () =>
    match w.addRuleResult ruleset_fd rule_type path_fd allowed with
    | .error n =>
        (.error (.osError n), [.sysAddRule ruleset_fd rule_type path_fd allowed])
    | .ok () => (.ok (), [.sysAddRule ruleset_fd rule_type path_fd allowed])

/-- `_landlock_restrict_self` (sandbox.py lines 101-103): on success the
kernel commits the policy to the process. -/
def _landlock_restrict_self (w : World) (ruleset_fd : Nat) (p : Proc) :
    Except Err Unit × Proc × List Event :=
  match _ensure_supported_arch w with
  | .error e => (.error e, p, [])
  | .ok () =>
    match w.restrictResult ruleset_fd with
    | .error n => (.error (.osError n), p, [.sysRestrictSelf ruleset_fd])
    | .ok () =>
        (.ok (), { p with policyCommitted := true }, [.sysRestrictSelf ruleset_fd])

/-- `is_supported` (sandbox.py lines 106-115): unrecognized architecture
gives `false` with no syscall; otherwise the version probe is issued and
ENOSYS/EOPNOTSUPP map to `false`, success to `true`, and any other
errno propagates.  The probe's file descriptor is never closed. -/
def is_supported (w : World) : Except Err Bool × List Event :=
  if w.machine ∈ _SUPPORTED_ARCHS then
    match _landlock_create_ruleset w none _LANDLOCK_CREATE_RULESET_VERSION with
    | (.error (.osError n), evs) =>
        if n = ENOSYS || n = EOPNOTSUPP then (.ok false, evs)
        else (.error (.osError n), evs)
    | (.error e, evs) => (.error e, evs)
    | (.ok _, evs) => (.ok true, evs)
  else (.ok false, [])

/-- A `Sandbox` dataclass instance (sandbox.py lines 118-121). -/
structure Sandbox where
  write_paths : List String
  applied : Bool
  deriving DecidableEq, Repr

/-- `Sandbox._normalized_paths` (sandbox.py lines 138-145): resolve each
configured path and existence-check it, failing with
`FileNotFoundError` at the first missing one. -/
def _normalized_paths (w : World) : List String → Except Err (List String)
  | [] => .ok []
  | path :: rest =>
    let abs_path := w.absPath path
    if w.pathExists abs_path then
      match _normalized_paths w rest with
      | .ok paths => .ok (abs_path :: paths)
      | .error e => .error e
    else .error (.fileNotFound abs_path)

/-- `Sandbox._allow_write` (sandbox.py lines 147-160): open an
`O_PATH` handle, register the rule, and close the handle in a
`finally` block. -/
def _allow_write (w : World) (ruleset_fd : Nat) (path : String) :
    Except Err Unit × List Event :=
  match w.oPath with
  | none => (.error .noOPath, [])
  | some _ =>
    match w.openResult path with
    | .error n => (.error (.osError n), [])
    | .ok fd =>
      match _landlock_add_rule w ruleset_fd _LANDLOCK_RULE_PATH_BENEATH fd
          _WRITE_ACCESS with
      | (r, evs) => (r, .osOpen path fd :: (evs ++ [.osClose fd]))

/-- The `for path in ...: self._allow_write(ruleset_fd, path)` loop of
`Sandbox.apply` (sandbox.py lines 129-130). -/
def allowWriteAll (w : World) (ruleset_fd : Nat) :
    List String → Except Err Unit × List Event
  | [] => (.ok (), [])
  | path :: rest =>
    match _allow_write w ruleset_fd path with
    | (.error e, evs) => (.error e, evs)
    | (.ok (), evs) =>
      match allowWriteAll w ruleset_fd rest with
      | (r, evs2) => (r, evs ++ evs2)

/-- `Sandbox._set_no_new_privs` (sandbox.py lines 162-166): the prctl
call; on success the process no-new-privileges flag is set. -/
def _set_no_new_privs (w : World) (p : Proc) :
    Except Err Unit × Proc × List Event :=
  match w.prctlResult with
  | .error n => (.error (.osError n), p, [.sysPrctlSetNNP])
  | .ok () => (.ok (), { p with nnp := true }, [.sysPrctlSetNNP])

/-- The body of the `try` block of `Sandbox.apply` after the paths have
been normalized (sandbox.py lines 129-132): register every rule, set
no-new-privileges, then restrict self. -/
def applyBody (w : World) (ruleset_fd : Nat) (paths : List String) (p : Proc) :
    Except Err Unit × Proc × List Event :=
  match allowWriteAll w ruleset_fd paths with
  | (.error e, evs1) => (.error e, p, evs1)
  | (.ok (), evs1) =>
    match _set_no_new_privs w p with
    | (.error e, p2, evs2) => (.error e, p2, evs1 ++ evs2)
    | (.ok (), p2, evs2) =>
      match _landlock_restrict_self w ruleset_fd p2 with
      | (r3, p3, evs3) => (r3, p3, evs1 ++ (evs2 ++ evs3))

/-- The full outcome of one call to `Sandbox.apply`: the returned or
raised value, the instance afterwards, the process state afterwards, and
the trace of events performed. -/
structure ApplyOut where
  result : Except Err Unit
  sandbox : Sandbox
  proc : Proc
  trace : List Event
  deriving Repr

/-- `Sandbox.apply` (sandbox.py lines 123-136): misuse check, ruleset
creation, then a `try` block (path normalization, rule registration,
no-new-privileges, restrict-self) whose `finally` closes the ruleset
file descriptor; only full success sets `_applied`. -/
def Sandbox.apply (w : World) (s : Sandbox) (p : Proc) : ApplyOut :=
  if s.applied then ⟨.error .alreadyApplied, s, p, []⟩
  else
    match _landlock_create_ruleset w (some _WRITE_ACCESS) 0 with
    | (.error e, evs) => ⟨.error e, s, p, evs⟩
    | (.ok fd, evs) =>
      match _normalized_paths w s.write_paths with
      | .error e => ⟨.error e, s, p, evs ++ [.osClose fd]⟩
      | .ok paths =>
        match applyBody w fd paths p with
        | (.error e, p2, evsB) =>
            ⟨.error e, s, p2, evs ++ (evsB ++ [.osClose fd])⟩
        | (.ok (), p2, evsB) =>
            ⟨.ok (), { s with applied := true }, p2,
              evs ++ (evsB ++ [.osClose fd])⟩

/-! ### Concrete environments used as test inputs -/

/-- A recognized architecture where every OS operation succeeds: the
create-ruleset syscall returns fd 3, path opens return fd 4. -/
def probeOkWorld : World where
  machine := "x86_64"
  absPath := fun p => String.append "/" p
  pathExists := fun _ => true
  oPath := some 65536
  createRulesetResult := fun _ _ => .ok 3
  openResult := fun _ => .ok 4
  addRuleResult := fun _ _ _ _ => .ok ()
  prctlResult := .ok ()
  restrictResult := fun _ => .ok ()

/-- A recognized architecture whose create-ruleset syscall fails with
EINVAL (errno 22). -/
def probeFailWorld : World :=
  { probeOkWorld with createRulesetResult := fun _ _ => .error 22 }

/-- Like `probeOkWorld` but no path exists on the filesystem. -/
def missingPathWorld : World :=
  { probeOkWorld with pathExists := fun _ => false }

/-- Like `probeOkWorld` but the restrict-self commit fails with EPERM
(errno 1). -/
def commitFailWorld : World :=
  { probeOkWorld with restrictResult := fun _ => .error 1 }

/-- An architecture outside `_SUPPORTED_ARCHS`. -/
def riscvWorld : World :=
  { probeOkWorld with machine := "riscv64" }

/-- Initial process state: neither flag set. -/
def proc0 : Proc := ⟨false, false⟩

/-! ### Helper lemmas about emitted event traces -/

lemma add_rule_events (w : World) (a b c d : Nat) :
    ∀ ev ∈ (_landlock_add_rule w a b c d).2, ev = Event.sysAddRule a b c d := by
  intro ev hev
  by_cases harch : w.machine ∈ _SUPPORTED_ARCHS
  · rcases har : w.addRuleResult a b c d with n | u
    · simp [_landlock_add_rule, _ensure_supported_arch, harch, har] at hev
      exact hev
    · cases u
      simp [_landlock_add_rule, _ensure_supported_arch, harch, har] at hev
      exact hev
  · simp [_landlock_add_rule, _ensure_supported_arch, harch] at hev

lemma allow_write_events (w : World) (ruleset_fd : Nat) (path : String) :
    ∀ ev ∈ (_allow_write w ruleset_fd path).2,
      ev.isPrctl = false ∧ ev.isRestrict = false ∧ ev.isCreate = false ∧
      (∀ a b c d, ev = Event.sysAddRule a b c d →
        a = ruleset_fd ∧ b = _LANDLOCK_RULE_PATH_BENEATH ∧ d = _WRITE_ACCESS) := by
  intro ev hev
  unfold _allow_write at hev
  rcases ho : w.oPath with _ | o
  · simp [ho] at hev
  · rcases hop : w.openResult path with n | fd
    · simp [ho, hop] at hev
    · rcases har : _landlock_add_rule w ruleset_fd _LANDLOCK_RULE_PATH_BENEATH fd
          _WRITE_ACCESS with ⟨r, evs⟩
      simp [ho, hop, har] at hev
      rcases hev with rfl | hev | rfl
      · exact ⟨rfl, rfl, rfl, fun a b c d h => by cases h⟩
      · have heq := add_rule_events w ruleset_fd _LANDLOCK_RULE_PATH_BENEATH fd
          _WRITE_ACCESS ev (by rw [har]; exact hev)
        subst heq
        exact ⟨rfl, rfl, rfl, fun a b c d h => by cases h; exact ⟨rfl, rfl, rfl⟩⟩
      · exact ⟨rfl, rfl, rfl, fun a b c d h => by cases h⟩

lemma allowWriteAll_events (w : World) (ruleset_fd : Nat) (paths : List String) :
    ∀ ev ∈ (allowWriteAll w ruleset_fd paths).2,
      ev.isPrctl = false ∧ ev.isRestrict = false ∧ ev.isCreate = false ∧
      (∀ a b c d, ev = Event.sysAddRule a b c d →
        a = ruleset_fd ∧ b = _LANDLOCK_RULE_PATH_BENEATH ∧ d = _WRITE_ACCESS) := by
  induction paths with
  | nil => intro ev hev; simp [allowWriteAll] at hev
  | cons q rest ih =>
    intro ev hev
    unfold allowWriteAll at hev
    rcases hq : _allow_write w ruleset_fd q with ⟨r1, evs1⟩
    rw [hq] at hev
    cases r1 with
    | error e =>
      simp at hev
      exact allow_write_events w ruleset_fd q ev (by rw [hq]; exact hev)
    | ok u =>
      cases u
      rcases hrest : allowWriteAll w ruleset_fd rest with ⟨r2, evs2⟩
      rw [hrest] at hev
      simp at hev
      rcases hev with hev | hev
      · exact allow_write_events w ruleset_fd q ev (by rw [hq]; exact hev)
      · exact ih ev (by rw [hrest]; exact hev)

lemma set_no_new_privs_cases (w : World) (p : Proc) :
    (_set_no_new_privs w p).2.2 = [Event.sysPrctlSetNNP] ∧
    ((_set_no_new_privs w p).2.1).policyCommitted = p.policyCommitted ∧
    (∀ e, (_set_no_new_privs w p).1 = .error e →
      (_set_no_new_privs w p).2.1 = p) ∧
    (w.prctlResult = .ok () →
      _set_no_new_privs w p =
        (.ok (), { p with nnp := true }, [Event.sysPrctlSetNNP])) := by
  rcases hp : w.prctlResult with n | u
  · simp [_set_no_new_privs, hp]
  · cases u; simp [_set_no_new_privs, hp]

lemma restrict_self_cases (w : World) (fd : Nat) (p : Proc) :
    ((_landlock_restrict_self w fd p).2.2 = [] ∨
      (_landlock_restrict_self w fd p).2.2 = [Event.sysRestrictSelf fd]) ∧
    ((_landlock_restrict_self w fd p).2.1).nnp = p.nnp ∧
    (∀ e, (_landlock_restrict_self w fd p).1 = .error e →
      (_landlock_restrict_self w fd p).2.1 = p) := by
  by_cases harch : w.machine ∈ _SUPPORTED_ARCHS
  · rcases hr : w.restrictResult fd with n | u
    · simp [_landlock_restrict_self, _ensure_supported_arch, harch, hr]
    · cases u
      simp [_landlock_restrict_self, _ensure_supported_arch, harch, hr]
  · simp [_landlock_restrict_self, _ensure_supported_arch, harch]

lemma applyBody_eq_of_rules_error (w : World) (fd : Nat) (paths : List String)
    (p : Proc) (e : Err) (evs1 : List Event)
    (h : allowWriteAll w fd paths = (.error e, evs1)) :
    applyBody w fd paths p = (.error e, p, evs1) := by
  unfold applyBody; rw [h]

lemma applyBody_eq_of_prctl_error (w : World) (fd : Nat) (paths : List String)
    (p : Proc) (evs1 : List Event) (n : Nat)
    (h : allowWriteAll w fd paths = (.ok (), evs1))
    (hp : w.prctlResult = .error n) :
    applyBody w fd paths p =
      (.error (.osError n), p, evs1 ++ [Event.sysPrctlSetNNP]) := by
  unfold applyBody
  rw [h]
  unfold _set_no_new_privs
  rw [hp]

lemma applyBody_eq_of_prctl_ok (w : World) (fd : Nat) (paths : List String)
    (p : Proc) (evs1 : List Event)
    (h : allowWriteAll w fd paths = (.ok (), evs1))
    (hp : w.prctlResult = .ok ()) :
    applyBody w fd paths p =
      ((_landlock_restrict_self w fd { p with nnp := true }).1,
       (_landlock_restrict_self w fd { p with nnp := true }).2.1,
       evs1 ++ ([Event.sysPrctlSetNNP] ++
         (_landlock_restrict_self w fd { p with nnp := true }).2.2)) := by
  unfold applyBody
  rw [h]
  unfold _set_no_new_privs
  rw [hp]

/-- Decomposition of the trace and final state of `applyBody`: the
events are the rule-registration events, then at most one prctl event,
then at most one restrict event; the restrict event can occur only
after the prctl one; on an error the process policy flag is unchanged;
and whenever the prctl step ran with a succeeding `prctl`, the
no-new-privileges flag of the resulting process state is set. -/
lemma applyBody_main (w : World) (fd : Nat) (paths : List String) (p : Proc) :
    ∃ r np rs,
      (applyBody w fd paths p).2.2 = r ++ (np ++ rs) ∧
      (∀ ev ∈ r, ev.isPrctl = false ∧ ev.isRestrict = false ∧
        ev.isCreate = false ∧
        (∀ a b c d, ev = Event.sysAddRule a b c d →
          a = fd ∧ b = _LANDLOCK_RULE_PATH_BENEATH ∧ d = _WRITE_ACCESS)) ∧
      (np = [] ∨ np = [Event.sysPrctlSetNNP]) ∧
      (rs = [] ∨ rs = [Event.sysRestrictSelf fd]) ∧
      (rs ≠ [] → np = [Event.sysPrctlSetNNP]) ∧
      (∀ e, (applyBody w fd paths p).1 = .error e →
        ((applyBody w fd paths p).2.1).policyCommitted = p.policyCommitted) ∧
      (w.prctlResult = .ok () → np = [Event.sysPrctlSetNNP] →
        ((applyBody w fd paths p).2.1).nnp = true) := by
  rcases haw : allowWriteAll w fd paths with ⟨r1, evs1⟩
  have hr1 : ∀ ev ∈ evs1, Event.isPrctl ev = false ∧ Event.isRestrict ev = false ∧
      Event.isCreate ev = false ∧
      (∀ a b c d, ev = Event.sysAddRule a b c d →
        a = fd ∧ b = _LANDLOCK_RULE_PATH_BENEATH ∧ d = _WRITE_ACCESS) := by
    intro ev hev
    exact allowWriteAll_events w fd paths ev (by rw [haw]; exact hev)
  cases r1 with
  | error e =>
    rw [applyBody_eq_of_rules_error w fd paths p e evs1 haw]
    refine ⟨evs1, [], [], by simp, hr1, Or.inl rfl, Or.inl rfl, by simp, ?_, ?_⟩
    · intro e' _; rfl
    · intro _ hcontra; cases hcontra
  | ok u =>
    cases u
    rcases hp : w.prctlResult with n | u'
    · rw [applyBody_eq_of_prctl_error w fd paths p evs1 n haw hp]
      refine ⟨evs1, [Event.sysPrctlSetNNP], [], by simp, hr1, Or.inr rfl,
        Or.inl rfl, by simp, ?_, ?_⟩
      · intro e' _; rfl
      · intro hok _; exact Except.noConfusion hok
    · cases u'
      rw [applyBody_eq_of_prctl_ok w fd paths p evs1 haw hp]
      have hcases := restrict_self_cases w fd { p with nnp := true }
      refine ⟨evs1, [Event.sysPrctlSetNNP],
        (_landlock_restrict_self w fd { p with nnp := true }).2.2,
        by simp, hr1, Or.inr rfl, hcases.1, fun _ => rfl, ?_, ?_⟩
      · intro e' he'
        have h3 := hcases.2.2 e' he'
        simp [h3]
      · intro _ _
        have h2 := hcases.2.1
        simp [h2]

/-- Decomposition of the full `Sandbox.apply` trace into five phases:
the create-ruleset syscall, the rule-registration events, at most one
prctl event, at most one restrict event, and the final close of the
ruleset file descriptor — in this order, with the restrict event only
possible after the prctl one. -/
lemma apply_trace_decomp (w : World) (s : Sandbox) (p : Proc) :
    ∃ c r np rs cl fd,
      (Sandbox.apply w s p).trace = c ++ (r ++ (np ++ (rs ++ cl))) ∧
      (c = [] ∨ c = [Event.sysCreateRuleset (some _WRITE_ACCESS) 0]) ∧
      (∀ ev ∈ r, ev.isPrctl = false ∧ ev.isRestrict = false ∧
        ev.isCreate = false ∧
        (∀ a b c' d, ev = Event.sysAddRule a b c' d →
          b = _LANDLOCK_RULE_PATH_BENEATH ∧ d = _WRITE_ACCESS)) ∧
      (np = [] ∨ np = [Event.sysPrctlSetNNP]) ∧
      (rs = [] ∨ rs = [Event.sysRestrictSelf fd]) ∧
      (cl = [] ∨ cl = [Event.osClose fd]) ∧
      (rs ≠ [] → np = [Event.sysPrctlSetNNP]) := by
  unfold Sandbox.apply
  cases hA : s.applied with
  | true =>
    exact ⟨[], [], [], [], [], 0, by simp, Or.inl rfl, by simp, Or.inl rfl,
      Or.inl rfl, Or.inl rfl, by simp⟩
  | false =>
    simp only [Bool.false_eq_true, if_false]
    by_cases harch : w.machine ∈ _SUPPORTED_ARCHS
    · rcases hcr : w.createRulesetResult (some _WRITE_ACCESS) 0 with n | fd
      · refine ⟨[Event.sysCreateRuleset (some _WRITE_ACCESS) 0], [], [], [], [],
          0, ?_, Or.inr rfl, by simp, Or.inl rfl, Or.inl rfl, Or.inl rfl,
          by simp⟩
        simp [_landlock_create_ruleset, _ensure_supported_arch, harch, hcr]
      · rcases hnp : _normalized_paths w s.write_paths with e | paths
        · refine ⟨[Event.sysCreateRuleset (some _WRITE_ACCESS) 0], [], [], [],
            [Event.osClose fd], fd, ?_, Or.inr rfl, by simp, Or.inl rfl,
            Or.inl rfl, Or.inr rfl, by simp⟩
          simp [_landlock_create_ruleset, _ensure_supported_arch, harch, hcr,
            hnp]
        · obtain ⟨r, np, rs, htr, hr, hnp2, hrs, hrsne, _, _⟩ :=
            applyBody_main w fd paths p
          rcases hb : applyBody w fd paths p with ⟨rb, pb, evsb⟩
          have hevsb : evsb = r ++ (np ++ rs) := by rw [hb] at htr; exact htr
          refine ⟨[Event.sysCreateRuleset (some _WRITE_ACCESS) 0], r, np, rs,
            [Event.osClose fd], fd, ?_, Or.inr rfl,
            fun ev hev => ⟨(hr ev hev).1, (hr ev hev).2.1, (hr ev hev).2.2.1,
              fun a b c' d hh => ((hr ev hev).2.2.2 a b c' d hh).2⟩,
            hnp2, hrs, Or.inr rfl, hrsne⟩
          cases rb with
          | error e =>
            simp [_landlock_create_ruleset, _ensure_supported_arch, harch, hcr,
              hnp, hb, hevsb]
          | ok u =>
            cases u
            simp [_landlock_create_ruleset, _ensure_supported_arch, harch, hcr,
              hnp, hb, hevsb]
    · exact ⟨[], [], [], [], [], 0,
        by simp [_landlock_create_ruleset, _ensure_supported_arch, harch],
        Or.inl rfl, by simp, Or.inl rfl, Or.inl rfl, Or.inl rfl, by simp⟩

lemma apply_eq_of_misuse (w : World) (s : Sandbox) (p : Proc)
    (hA : s.applied = true) :
    Sandbox.apply w s p = ⟨.error .alreadyApplied, s, p, []⟩ := by
  unfold Sandbox.apply; rw [if_pos hA]

lemma apply_eq_of_arch_error (w : World) (s : Sandbox) (p : Proc)
    (hA : s.applied = false) (harch : w.machine ∉ _SUPPORTED_ARCHS) :
    Sandbox.apply w s p = ⟨.error .unsupportedArch, s, p, []⟩ := by
  unfold Sandbox.apply
  simp [hA, _landlock_create_ruleset, _ensure_supported_arch, harch]

lemma apply_eq_of_create_error (w : World) (s : Sandbox) (p : Proc) (n : Nat)
    (hA : s.applied = false) (harch : w.machine ∈ _SUPPORTED_ARCHS)
    (hcr : w.createRulesetResult (some _WRITE_ACCESS) 0 = .error n) :
    Sandbox.apply w s p =
      ⟨.error (.osError n), s, p,
        [Event.sysCreateRuleset (some _WRITE_ACCESS) 0]⟩ := by
  unfold Sandbox.apply
  simp [hA, _landlock_create_ruleset, _ensure_supported_arch, harch, hcr]

lemma apply_eq_of_paths_error (w : World) (s : Sandbox) (p : Proc) (fd : Nat)
    (e : Err) (hA : s.applied = false) (harch : w.machine ∈ _SUPPORTED_ARCHS)
    (hcr : w.createRulesetResult (some _WRITE_ACCESS) 0 = .ok fd)
    (hnp : _normalized_paths w s.write_paths = .error e) :
    Sandbox.apply w s p =
      ⟨.error e, s, p,
        [Event.sysCreateRuleset (some _WRITE_ACCESS) 0, Event.osClose fd]⟩ := by
  unfold Sandbox.apply
  simp [hA, _landlock_create_ruleset, _ensure_supported_arch, harch, hcr, hnp]

lemma apply_eq_of_body_error (w : World) (s : Sandbox) (p : Proc) (fd : Nat)
    (paths : List String) (e : Err) (pb : Proc) (evsb : List Event)
    (hA : s.applied = false) (harch : w.machine ∈ _SUPPORTED_ARCHS)
    (hcr : w.createRulesetResult (some _WRITE_ACCESS) 0 = .ok fd)
    (hnp : _normalized_paths w s.write_paths = .ok paths)
    (hb : applyBody w fd paths p = (.error e, pb, evsb)) :
    Sandbox.apply w s p =
      ⟨.error e, s, pb,
        Event.sysCreateRuleset (some _WRITE_ACCESS) 0 ::
          (evsb ++ [Event.osClose fd])⟩ := by
  unfold Sandbox.apply
  simp [hA, _landlock_create_ruleset, _ensure_supported_arch, harch, hcr, hnp,
    hb]

lemma apply_eq_of_body_ok (w : World) (s : Sandbox) (p : Proc) (fd : Nat)
    (paths : List String) (pb : Proc) (evsb : List Event)
    (hA : s.applied = false) (harch : w.machine ∈ _SUPPORTED_ARCHS)
    (hcr : w.createRulesetResult (some _WRITE_ACCESS) 0 = .ok fd)
    (hnp : _normalized_paths w s.write_paths = .ok paths)
    (hb : applyBody w fd paths p = (.ok (), pb, evsb)) :
    Sandbox.apply w s p =
      ⟨.ok (), { s with applied := true }, pb,
        Event.sysCreateRuleset (some _WRITE_ACCESS) 0 ::
          (evsb ++ [Event.osClose fd])⟩ := by
  unfold Sandbox.apply
  simp [hA, _landlock_create_ruleset, _ensure_supported_arch, harch, hcr, hnp,
    hb]

lemma normalized_paths_error_of_missing (w : World) :
    ∀ paths : List String, (∃ q ∈ paths, w.pathExists (w.absPath q) = false) →
      ∃ a, _normalized_paths w paths = .error (.fileNotFound a) ∧
        w.pathExists a = false := by
  intro paths
  induction paths with
  | nil => rintro ⟨q, hq, _⟩; cases hq
  | cons q rest ih =>
    rintro ⟨q', hq', hmiss⟩
    by_cases hq : w.pathExists (w.absPath q) = true
    · have hrest : ∃ x ∈ rest, w.pathExists (w.absPath x) = false := by
        rcases List.mem_cons.mp hq' with rfl | hmem
        · rw [hmiss] at hq; cases hq
        · exact ⟨q', hmem, hmiss⟩
      obtain ⟨a, ha, hfa⟩ := ih hrest
      exact ⟨a, by simp [_normalized_paths, hq, ha], hfa⟩
    · have hq0 : w.pathExists (w.absPath q) = false := by
        cases h : w.pathExists (w.absPath q)
        · rfl
        · exact absurd h hq
      exact ⟨w.absPath q, by simp [_normalized_paths, hq0], hq0⟩

/-! ### Claims -/

/-- **C4.** For every Sandbox instance already in the Applied state,
every call to `apply` fails with the misuse error and performs no
events at all (in particular no syscalls), leaving the instance and the
process state unchanged. -/
theorem C4_apply_misuse (w : World) (s : Sandbox) (p : Proc)
    (h : s.applied = true) :
    Sandbox.apply w s p = ⟨.error .alreadyApplied, s, p, []⟩ := by
  unfold Sandbox.apply
  rw [if_pos h]

/-- Witness for C4 at a concrete already-applied instance. -/
theorem C4_witness :
    Sandbox.apply probeOkWorld ⟨["data"], true⟩ proc0 =
      ⟨.error .alreadyApplied, ⟨["data"], true⟩, proc0, []⟩ :=
  C4_apply_misuse probeOkWorld ⟨["data"], true⟩ proc0 rfl

/-- **C6.** On a recognized architecture with a succeeding probe,
`is_supported` returns `true` but its event trace contains the
create-ruleset syscall and no close event at all: the live ruleset file
descriptor is NOT released before returning, contradicting the claim
(the spec itself flags this as the probe's resource-leak defect). -/
theorem C6_probe_leaks_fd :
    (is_supported probeOkWorld).1 = .ok true ∧
    (is_supported probeOkWorld).2 = [Event.sysCreateRuleset none 1] ∧
    (is_supported probeOkWorld).2.any Event.isClose = false := by
  exact ⟨rfl, rfl, rfl⟩

/-- **C7, counterexample.** On the recognized architecture `x86_64`,
when the probe syscall fails with EINVAL (errno 22), `is_supported`
raises an OS error rather than returning a boolean — refuting "never
raises when the current architecture is in the recognized set". -/
theorem C7_counterexample :
    probeFailWorld.machine ∈ _SUPPORTED_ARCHS ∧
    (is_supported probeFailWorld).1 = .error (.osError 22) := by
  exact ⟨by decide, rfl⟩

/-- **C7, amended.** On an unrecognized architecture `is_supported`
returns `false` without attempting any syscall (empty trace); on a
recognized architecture it raises only when the probe syscall fails
with an errno other than ENOSYS and EOPNOTSUPP, and the raised error
carries exactly that errno. -/
theorem C7_amended (w : World) :
    (w.machine ∉ _SUPPORTED_ARCHS → is_supported w = (.ok false, [])) ∧
    (w.machine ∈ _SUPPORTED_ARCHS →
      ∀ e, (is_supported w).1 = .error e →
        ∃ n, e = .osError n ∧ ¬(n = ENOSYS ∨ n = EOPNOTSUPP) ∧
          w.createRulesetResult none _LANDLOCK_CREATE_RULESET_VERSION =
            .error n) := by
  constructor
  · intro h
    unfold is_supported
    rw [if_neg h]
  · intro h e he
    unfold is_supported _landlock_create_ruleset _ensure_supported_arch at he
    rw [if_pos h, if_pos h] at he
    cases hcr : w.createRulesetResult none _LANDLOCK_CREATE_RULESET_VERSION with
    | ok fd => rw [hcr] at he; simp at he
    | error n =>
      rw [hcr] at he
      by_cases h1 : n = ENOSYS
      · subst h1; simp at he
      · by_cases h2 : n = EOPNOTSUPP
        · subst h2; simp at he
        · simp [h1, h2] at he
          refine ⟨n, ?_, by simp [h1, h2], rfl⟩
          simp [he.symm]

/-- Witness for C7 on a concrete unrecognized architecture. -/
theorem C7_witness : is_supported riscvWorld = (.ok false, []) :=
  (C7_amended riscvWorld).1 (by decide)

/-- **C8.** On a recognized architecture, the probe outcome maps to the
result of `is_supported` as the spec states: probe success gives
`true`; probe failure with ENOSYS or EOPNOTSUPP gives `false`; any
other errno is propagated as an OS error carrying that errno. -/
theorem C8_probe_mapping (w : World) (h : w.machine ∈ _SUPPORTED_ARCHS) :
    (∀ fd, w.createRulesetResult none _LANDLOCK_CREATE_RULESET_VERSION = .ok fd →
      is_supported w =
        (.ok true,
          [Event.sysCreateRuleset none _LANDLOCK_CREATE_RULESET_VERSION])) ∧
    (∀ n, w.createRulesetResult none _LANDLOCK_CREATE_RULESET_VERSION =
        .error n →
      ((n = ENOSYS ∨ n = EOPNOTSUPP) → (is_supported w).1 = .ok false) ∧
      (¬(n = ENOSYS ∨ n = EOPNOTSUPP) →
        (is_supported w).1 = .error (.osError n))) := by
  constructor
  · intro fd hfd
    unfold is_supported _landlock_create_ruleset _ensure_supported_arch
    rw [if_pos h, if_pos h, hfd]
  · intro n hn
    constructor
    · intro hok
      unfold is_supported _landlock_create_ruleset _ensure_supported_arch
      rw [if_pos h, if_pos h, hn]
      rcases hok with h1 | h1 <;> subst h1 <;> simp
    · intro hbad
      unfold is_supported _landlock_create_ruleset _ensure_supported_arch
      rw [if_pos h, if_pos h, hn]
      have h1 : ¬n = ENOSYS := fun hh => hbad (Or.inl hh)
      have h2 : ¬n = EOPNOTSUPP := fun hh => hbad (Or.inr hh)
      simp [h1, h2]

/-- Witness for C8 at a concrete world with a succeeding probe. -/
theorem C8_witness :
    is_supported probeOkWorld = (.ok true, [Event.sysCreateRuleset none 1]) :=
  (C8_probe_mapping probeOkWorld (by decide)).1 3 rfl

/-- **C1, counterexample.** With a single nonexistent configured path on
a recognized architecture, `apply` fails with the Not-Found error, yet
its trace already contains the kernel create-ruleset syscall as its
first event: the existence check does NOT complete before the first
kernel-facing call, refuting the claim as stated. -/
theorem C1_counterexample :
    (Sandbox.apply missingPathWorld ⟨["data"], false⟩ proc0).result =
      .error (.fileNotFound "/data") ∧
    (Sandbox.apply missingPathWorld ⟨["data"], false⟩ proc0).trace =
      [Event.sysCreateRuleset (some _WRITE_ACCESS) 0, Event.osClose 3] := by
  exact ⟨rfl, rfl⟩

/-- **C1, amended.** If any configured path does not exist, `apply`
fails with a Not-Found error naming a nonexistent resolved path, but
only after the kernel ruleset object has been created: the trace is
exactly the create-ruleset syscall followed by the close of its file
descriptor, so the existence checks all complete before any rule
registration or any other syscall, and the instance and process state
are unchanged. -/
theorem C1_not_found_after_create (w : World) (s : Sandbox) (p : Proc)
    (fd : Nat) (hA : s.applied = false)
    (harch : w.machine ∈ _SUPPORTED_ARCHS)
    (hcr : w.createRulesetResult (some _WRITE_ACCESS) 0 = .ok fd)
    (hmiss : ∃ q ∈ s.write_paths, w.pathExists (w.absPath q) = false) :
    ∃ a, Sandbox.apply w s p =
      ⟨.error (.fileNotFound a), s, p,
        [Event.sysCreateRuleset (some _WRITE_ACCESS) 0, Event.osClose fd]⟩ ∧
      w.pathExists a = false := by
  obtain ⟨a, ha, hfa⟩ :=
    normalized_paths_error_of_missing w s.write_paths hmiss
  exact ⟨a, apply_eq_of_paths_error w s p fd (.fileNotFound a) hA harch hcr ha,
    hfa⟩

/-- Witness for the amended C1 at a concrete missing path. -/
theorem C1_witness :
    ∃ a, Sandbox.apply missingPathWorld ⟨["data"], false⟩ proc0 =
      ⟨.error (.fileNotFound a), ⟨["data"], false⟩, proc0,
        [Event.sysCreateRuleset (some _WRITE_ACCESS) 0, Event.osClose 3]⟩ ∧
      missingPathWorld.pathExists a = false :=
  C1_not_found_after_create missingPathWorld ⟨["data"], false⟩ proc0 3 rfl
    (by decide) rfl ⟨"data", by simp, rfl⟩

lemma apply_trace_ends_with_close (w : World) (s : Sandbox) (p : Proc)
    (fd : Nat) (hA : s.applied = false)
    (harch : w.machine ∈ _SUPPORTED_ARCHS)
    (hcr : w.createRulesetResult (some _WRITE_ACCESS) 0 = .ok fd) :
    (Sandbox.apply w s p).trace.getLast? = some (Event.osClose fd) := by
  rcases hnp : _normalized_paths w s.write_paths with e | paths
  · rw [apply_eq_of_paths_error w s p fd e hA harch hcr hnp]
    rfl
  · rcases hb : applyBody w fd paths p with ⟨rb, pb, evsb⟩
    cases rb with
    | error e' =>
      rw [apply_eq_of_body_error w s p fd paths e' pb evsb hA harch hcr hnp hb]
      exact List.getLast?_append_cons
        (Event.sysCreateRuleset (some _WRITE_ACCESS) 0 :: evsb)
        (Event.osClose fd) []
    | ok u =>
      cases u
      rw [apply_eq_of_body_ok w s p fd paths pb evsb hA harch hcr hnp hb]
      exact List.getLast?_append_cons
        (Event.sysCreateRuleset (some _WRITE_ACCESS) 0 :: evsb)
        (Event.osClose fd) []

/-- **C2.** For an unapplied instance, `apply` ends in the Applied
state exactly when it returns success (i.e. every step succeeded); on
any error the error is the result, the instance is unchanged (still
Unapplied), and the process filesystem policy is unchanged; and
whenever the kernel ruleset object was created, it is discarded (its
descriptor closed) before `apply` returns. -/
theorem C2_applied_iff_success (w : World) (s : Sandbox) (p : Proc)
    (hA : s.applied = false) :
    ((Sandbox.apply w s p).result = .ok () ↔
      (Sandbox.apply w s p).sandbox.applied = true) ∧
    (∀ e, (Sandbox.apply w s p).result = .error e →
      (Sandbox.apply w s p).sandbox = s ∧
      ((Sandbox.apply w s p).proc).policyCommitted = p.policyCommitted) ∧
    (∀ fd, w.machine ∈ _SUPPORTED_ARCHS →
      w.createRulesetResult (some _WRITE_ACCESS) 0 = .ok fd →
      Event.osClose fd ∈ (Sandbox.apply w s p).trace) := by
  have hclose : ∀ fd, w.machine ∈ _SUPPORTED_ARCHS →
      w.createRulesetResult (some _WRITE_ACCESS) 0 = .ok fd →
      Event.osClose fd ∈ (Sandbox.apply w s p).trace := by
    intro fd harch hcr
    have hlast := apply_trace_ends_with_close w s p fd hA harch hcr
    obtain ⟨hne, heq⟩ := List.mem_getLast?_eq_getLast hlast
    rw [heq]
    exact List.getLast_mem hne
  have main :
      ((Sandbox.apply w s p).result = .ok () ↔
        (Sandbox.apply w s p).sandbox.applied = true) ∧
      (∀ e, (Sandbox.apply w s p).result = .error e →
        (Sandbox.apply w s p).sandbox = s ∧
        ((Sandbox.apply w s p).proc).policyCommitted = p.policyCommitted) := by
    by_cases harch : w.machine ∈ _SUPPORTED_ARCHS
    · rcases hcr : w.createRulesetResult (some _WRITE_ACCESS) 0 with n | fd
      · rw [apply_eq_of_create_error w s p n hA harch hcr]
        simp [hA]
      · rcases hnp : _normalized_paths w s.write_paths with e | paths
        · rw [apply_eq_of_paths_error w s p fd e hA harch hcr hnp]
          simp [hA]
        · obtain ⟨r, np, rs, _, _, _, _, _, herrpol, _⟩ :=
            applyBody_main w fd paths p
          rcases hb : applyBody w fd paths p with ⟨rb, pb, evsb⟩
          cases rb with
          | error e' =>
            have hpol : pb.policyCommitted = p.policyCommitted := by
              have h1 := herrpol e' (by rw [hb])
              rw [hb] at h1
              exact h1
            rw [apply_eq_of_body_error w s p fd paths e' pb evsb hA harch hcr
              hnp hb]
            simp [hA, hpol]
          | ok u =>
            cases u
            rw [apply_eq_of_body_ok w s p fd paths pb evsb hA harch hcr hnp hb]
            simp
    · rw [apply_eq_of_arch_error w s p hA (by exact harch)]
      simp [hA]
  exact ⟨main.1, main.2, hclose⟩

/-- Witness for C2: a fully successful run ends Applied. -/
theorem C2_witness :
    (Sandbox.apply probeOkWorld ⟨["data"], false⟩ proc0).sandbox.applied =
      true :=
  (C2_applied_iff_success probeOkWorld ⟨["data"], false⟩ proc0 rfl).1.mp rfl

/-- **C3.** Whenever the kernel ruleset file descriptor is successfully
created (unapplied instance, recognized architecture, create syscall
returns `fd`), the very last event of `apply`'s trace is the close of
that descriptor — it is released on every exit path, success or
failure. -/
theorem C3_ruleset_fd_released (w : World) (s : Sandbox) (p : Proc) (fd : Nat)
    (hA : s.applied = false) (harch : w.machine ∈ _SUPPORTED_ARCHS)
    (hcr : w.createRulesetResult (some _WRITE_ACCESS) 0 = .ok fd) :
    (Sandbox.apply w s p).trace.getLast? = some (Event.osClose fd) :=
  apply_trace_ends_with_close w s p fd hA harch hcr

/-- Witness for C3: on a successful concrete run the trace ends by
closing ruleset fd 3. -/
theorem C3_witness :
    (Sandbox.apply probeOkWorld ⟨["data"], false⟩ proc0).trace.getLast? =
      some (Event.osClose 3) :=
  C3_ruleset_fd_released probeOkWorld ⟨["data"], false⟩ proc0 3 rfl (by decide)
    rfl

/-- **C5.** The write-class mask `_WRITE_ACCESS` consists of exactly the
ten bits 1 (write-file), 4 (remove-dir), 5 (remove-file) and 6–12 (the
seven make-* bits) — equivalently it is the sum of those ten named
single-bit constants, with no other bit set at any position — and in
every run of `apply`, every create-ruleset syscall carries exactly this
mask as its handled-access set and every add-rule syscall carries
exactly this mask as its allowed-access (with the path-beneath rule
kind), for every path alike. -/
theorem C5_single_write_mask :
    ((List.range 64).filter (fun i => Nat.testBit _WRITE_ACCESS i) =
      [1, 4, 5, 6, 7, 8, 9, 10, 11, 12]) ∧
    (∀ i, 64 ≤ i → Nat.testBit _WRITE_ACCESS i = false) ∧
    (_WRITE_ACCESS =
      _LANDLOCK_ACCESS_FS_WRITE_FILE + _LANDLOCK_ACCESS_FS_REMOVE_FILE +
      _LANDLOCK_ACCESS_FS_REMOVE_DIR + _LANDLOCK_ACCESS_FS_MAKE_CHAR +
      _LANDLOCK_ACCESS_FS_MAKE_DIR + _LANDLOCK_ACCESS_FS_MAKE_REG +
      _LANDLOCK_ACCESS_FS_MAKE_SOCK + _LANDLOCK_ACCESS_FS_MAKE_FIFO +
      _LANDLOCK_ACCESS_FS_MAKE_BLOCK + _LANDLOCK_ACCESS_FS_MAKE_SYM) ∧
    (∀ (w : World) (s : Sandbox) (p : Proc),
      ∀ ev ∈ (Sandbox.apply w s p).trace,
        (∀ m f, ev = Event.sysCreateRuleset m f →
          m = some _WRITE_ACCESS ∧ f = 0) ∧
        (∀ a b c d, ev = Event.sysAddRule a b c d →
          b = _LANDLOCK_RULE_PATH_BENEATH ∧ d = _WRITE_ACCESS)) := by
  refine ⟨by decide, ?_, by decide, ?_⟩
  · intro i hi
    exact Nat.testBit_eq_false_of_lt
      (lt_of_lt_of_le (by decide : _WRITE_ACCESS < 2 ^ 64)
        (Nat.pow_le_pow_right (by decide) hi))
  · intro w s p ev hev
    obtain ⟨c, r, np, rs, cl, fd, htr, hc, hr, hnp, hrs, hcl, _⟩ :=
      apply_trace_decomp w s p
    rw [htr] at hev
    rcases List.mem_append.mp hev with h1 | h2
    · rcases hc with rfl | rfl
      · cases h1
      · have hev1 : ev = Event.sysCreateRuleset (some _WRITE_ACCESS) 0 := by
          simpa using h1
        subst hev1
        exact ⟨fun m f h => by cases h; exact ⟨rfl, rfl⟩,
          fun a b c' d h => by cases h⟩
    · rcases List.mem_append.mp h2 with h1 | h2
      · refine ⟨?_, ?_⟩
        · intro m f h
          subst h
          have hfalse := (hr _ h1).2.2.1
          simp [Event.isCreate] at hfalse
        · intro a b c' d h
          subst h
          exact (hr _ h1).2.2.2 a b c' d rfl
      · rcases List.mem_append.mp h2 with h1 | h2
        · rcases hnp with rfl | rfl
          · cases h1
          · have hev1 : ev = Event.sysPrctlSetNNP := by simpa using h1
            subst hev1
            refine ⟨fun m f h => ?_, fun a b c' d h => ?_⟩ <;> cases h
        · rcases List.mem_append.mp h2 with h1 | h1
          · rcases hrs with rfl | rfl
            · cases h1
            · have hev1 : ev = Event.sysRestrictSelf fd := by simpa using h1
              subst hev1
              refine ⟨fun m f h => ?_, fun a b c' d h => ?_⟩ <;> cases h
          · rcases hcl with rfl | rfl
            · cases h1
            · have hev1 : ev = Event.osClose fd := by simpa using h1
              subst hev1
              refine ⟨fun m f h => ?_, fun a b c' d h => ?_⟩ <;> cases h

/-- Witness for C5: the concrete add-rule syscall of a successful run
carries the path-beneath rule kind and the 8178 mask. -/
theorem C5_witness :
    (1 : Nat) = _LANDLOCK_RULE_PATH_BENEATH ∧ (8178 : Nat) = _WRITE_ACCESS :=
  (C5_single_write_mask.2.2.2 probeOkWorld ⟨["data"], false⟩ proc0
    (Event.sysAddRule 3 1 4 8178) (by decide)).2 3 1 4 8178 rfl

/-- **C9, counterexample.** The design sequence (section 4.7) puts the
resolution and existence-checking of every configured path entirely
before any kernel call, but in this concrete run with a nonexistent
path the very first event performed is already a kernel-facing syscall
(the create-ruleset call) and `apply` then fails with the Not-Found
error — so the steps of `apply` do NOT execute in exactly the design's
sequence, refuting that conjunct of the claim. -/
theorem C9_counterexample :
    (Sandbox.apply missingPathWorld ⟨["logs"], false⟩ proc0).result =
      .error (.fileNotFound "/logs") ∧
    (Sandbox.apply missingPathWorld ⟨["logs"], false⟩ proc0).trace =
      [Event.sysCreateRuleset (some _WRITE_ACCESS) 0, Event.osClose 3] ∧
    ((Sandbox.apply missingPathWorld ⟨["logs"], false⟩ proc0).trace.head?.map
        Event.isKernelCall) = some true := by
  exact ⟨rfl, rfl, rfl⟩

/-- **C9, amended.** In every run of `apply` the trace splits into five
consecutive phases in the code's fixed order: the create-ruleset
syscall, then the rule-registration events (no create, prctl or
restrict event among them), then at most the single prctl event, then
at most the single restrict (commit) event, then the final close of
the ruleset descriptor; the restrict event can occur only if the prctl
event occurred in the preceding phase — so the no-new-privileges flag
is set strictly after every per-path rule registration and strictly
before the commit, and the steps are never reordered, though this code
sequence differs from the design's §4.7 order in that ruleset creation
precedes path resolution. -/
theorem C9_steps_ordered (w : World) (s : Sandbox) (p : Proc) :
    ∃ c r np rs cl fd,
      (Sandbox.apply w s p).trace = c ++ (r ++ (np ++ (rs ++ cl))) ∧
      (∀ ev ∈ c, ev.isCreate = true) ∧
      (∀ ev ∈ r, ev.isCreate = false ∧ ev.isPrctl = false ∧
        ev.isRestrict = false) ∧
      (np = [] ∨ np = [Event.sysPrctlSetNNP]) ∧
      (rs = [] ∨ rs = [Event.sysRestrictSelf fd]) ∧
      (cl = [] ∨ cl = [Event.osClose fd]) ∧
      (rs ≠ [] → np = [Event.sysPrctlSetNNP]) := by
  obtain ⟨c, r, np, rs, cl, fd, htr, hc, hr, hnp, hrs, hcl, hrsnp⟩ :=
    apply_trace_decomp w s p
  refine ⟨c, r, np, rs, cl, fd, htr, ?_, ?_, hnp, hrs, hcl, hrsnp⟩
  · intro ev hev
    rcases hc with rfl | rfl
    · cases hev
    · have hev1 : ev = Event.sysCreateRuleset (some _WRITE_ACCESS) 0 := by
        simpa using hev
      subst hev1
      rfl
  · intro ev hev
    exact ⟨(hr ev hev).2.2.1, (hr ev hev).1, (hr ev hev).2.1⟩

/-- Witness for C9: the five-phase decomposition at a concrete
successful run. -/
theorem C9_witness :
    ∃ c r np rs cl fd,
      (Sandbox.apply probeOkWorld ⟨["data"], false⟩ proc0).trace =
        c ++ (r ++ (np ++ (rs ++ cl))) ∧
      (∀ ev ∈ c, ev.isCreate = true) ∧
      (∀ ev ∈ r, ev.isCreate = false ∧ ev.isPrctl = false ∧
        ev.isRestrict = false) ∧
      (np = [] ∨ np = [Event.sysPrctlSetNNP]) ∧
      (rs = [] ∨ rs = [Event.sysRestrictSelf fd]) ∧
      (cl = [] ∨ cl = [Event.osClose fd]) ∧
      (rs ≠ [] → np = [Event.sysPrctlSetNNP]) :=
  C9_steps_ordered probeOkWorld ⟨["data"], false⟩ proc0

/-- **C10.** If during `apply` the prctl step ran and succeeded (its
event is in the trace and the prctl result is success) and yet `apply`
raised an error — the commit failing is the only such possibility —
then the process is left with the no-new-privileges flag set, while the
instance remains Unapplied (unchanged) and the filesystem policy is
uncommitted. -/
theorem C10_nnp_persists (w : World) (s : Sandbox) (p : Proc)
    (hp : w.prctlResult = .ok ())
    (hmem : Event.sysPrctlSetNNP ∈ (Sandbox.apply w s p).trace)
    (e : Err) (herr : (Sandbox.apply w s p).result = .error e) :
    ((Sandbox.apply w s p).proc).nnp = true ∧
    (Sandbox.apply w s p).sandbox = s ∧
    ((Sandbox.apply w s p).proc).policyCommitted = p.policyCommitted := by
  cases hA : s.applied with
  | true =>
    rw [apply_eq_of_misuse w s p hA] at hmem
    cases hmem
  | false =>
    by_cases harch : w.machine ∈ _SUPPORTED_ARCHS
    · rcases hcr : w.createRulesetResult (some _WRITE_ACCESS) 0 with n | fd
      · rw [apply_eq_of_create_error w s p n hA harch hcr] at hmem
        simp at hmem
      · rcases hnpz : _normalized_paths w s.write_paths with e' | paths
        · rw [apply_eq_of_paths_error w s p fd e' hA harch hcr hnpz] at hmem
          simp at hmem
        · obtain ⟨r, np, rs, htr, hr, hnp2, hrs, _, herrpol, hnnp⟩ :=
            applyBody_main w fd paths p
          rcases hb : applyBody w fd paths p with ⟨rb, pb, evsb⟩
          have hevsb : evsb = r ++ (np ++ rs) := by
            rw [hb] at htr
            exact htr
          cases rb with
          | ok u =>
            cases u
            rw [apply_eq_of_body_ok w s p fd paths pb evsb hA harch hcr hnpz
              hb] at herr
            simp at herr
          | error e'' =>
            rw [apply_eq_of_body_error w s p fd paths e'' pb evsb hA harch hcr
              hnpz hb] at hmem ⊢
            simp [hevsb] at hmem
            have hin_np : Event.sysPrctlSetNNP ∈ np := by
              rcases hmem with h1 | h1 | h1
              · have hfalse := (hr _ h1).1
                simp [Event.isPrctl] at hfalse
              · exact h1
              · rcases hrs with rfl | rfl
                · cases h1
                · have hbad : Event.sysPrctlSetNNP = Event.sysRestrictSelf fd := by
                    simpa using h1
                  cases hbad
            have hne : np = [Event.sysPrctlSetNNP] := by
              rcases hnp2 with rfl | rfl
              · cases hin_np
              · rfl
            have hnnp2 := hnnp hp hne
            rw [hb] at hnnp2
            have hpol := herrpol e'' (by rw [hb])
            rw [hb] at hpol
            exact ⟨hnnp2, rfl, hpol⟩
    · rw [apply_eq_of_arch_error w s p hA harch] at hmem
      cases hmem

/-- Witness for C10: concrete run where the commit fails with EPERM —
the error propagates, the sandbox stays Unapplied, the policy is not
committed, yet no-new-privileges is set. -/
theorem C10_witness :
    ((Sandbox.apply commitFailWorld ⟨["data"], false⟩ proc0).proc).nnp =
      true ∧
    (Sandbox.apply commitFailWorld ⟨["data"], false⟩ proc0).sandbox =
      ⟨["data"], false⟩ ∧
    ((Sandbox.apply commitFailWorld ⟨["data"], false⟩
        proc0).proc).policyCommitted = proc0.policyCommitted :=
  C10_nnp_persists commitFailWorld ⟨["data"], false⟩ proc0 rfl (by decide)
    (.osError 1) rfl

end PyLandlock
